import Mathlib

/-!
Shallow embedding of the weathercli data-normalization and terminal-rendering
core (`src/api/services/weather_service.py`, `src/services/weather_models.py`)
and proofs about the spec's claims.

Python floats are modelled as exact rationals (`ℚ`), Python ints as `ℤ`,
JSON-ish dictionaries as ordered association lists with Python dict-literal
semantics (a duplicate key in a literal keeps the first position but the last
value).  Fallible Python code (KeyError / IndexError / ValueError) is modelled
with `Option`; the `{"error": msg}` dictionaries returned by the service are
modelled as `Except.error msg`.  The two network collaborators are oracle
parameters, and each service entry point also returns the ordered list of
collaborator requests it issued.
-/

namespace Weather

/-- JSON-like values produced by the normalizer (Python dict / list / str /
float / int / None). -/
inductive J : Type where
  | s (v : String)
  | q (v : ℚ)
  | z (v : ℤ)
  | arr (vs : List J)
  | obj (fields : List (String × J))
  | null
deriving Repr

/-- Insert-or-overwrite for a Python dict: an existing key keeps its position
but receives the new value, a new key is appended at the end. -/
def objUpsert : List (String × J) → String → J → List (String × J)
  | [], k, v => [(k, v)]
  | (k', v') :: rest, k, v =>
    if k = k' then (k, v) :: rest else (k', v') :: objUpsert rest k v

/-- Evaluation of a Python dict literal: entries are inserted left to right,
so a duplicated key ends up holding the value of its *last* occurrence. -/
def dictLit (entries : List (String × J)) : List (String × J) :=
  entries.foldl (fun acc kv => objUpsert acc kv.1 kv.2) []

/-- Dictionary lookup (`d[k]` / `d.get(k)`), as an association-list lookup. -/
def jGet : List (String × J) → String → Option J
  | [], _ => none
  | (k', v) :: rest, k => if k = k' then some v else jGet rest k

/-- Lookup of a key in a `J` value that is expected to be an object. -/
def objGet (j : J) (k : String) : Option J :=
  match j with
  | .obj fields => jGet fields k
  | _ => none

/-- Two-level lookup `j[k1][k2]`. -/
def objGet2 (j : J) (k1 k2 : String) : Option J :=
  (objGet j k1).bind (fun v => objGet v k2)

/-! ### WeatherCodeMapper (`src/services/weather_models.py`, lines 59-98) -/

/-- The fixed WMO code table `WeatherCodeMapper.WMO_CODES`. -/
def WMO_CODES : List (ℤ × String × String) :=
  [(0, ("Clear sky", "clear")),
   (1, ("Mainly clear", "clear")),
   (2, ("Partly cloudy", "cloudy")),
   (3, ("Overcast", "cloudy")),
   (45, ("Fog", "fog")),
   (48, ("Depositing rime fog", "fog")),
   (51, ("Light drizzle", "rain")),
   (53, ("Moderate drizzle", "rain")),
   (55, ("Dense drizzle", "rain")),
   (56, ("Light freezing drizzle", "rain")),
   (57, ("Dense freezing drizzle", "rain")),
   (61, ("Slight rain", "rain")),
   (63, ("Moderate rain", "rain")),
   (65, ("Heavy rain", "rain")),
   (66, ("Light freezing rain", "rain")),
   (67, ("Heavy freezing rain", "rain")),
   (71, ("Slight snow fall", "snow")),
   (73, ("Moderate snow fall", "snow")),
   (75, ("Heavy snow fall", "snow")),
   (77, ("Snow grains", "snow")),
   (80, ("Slight rain showers", "rain")),
   (81, ("Moderate rain showers", "rain")),
   (82, ("Violent rain showers", "rain")),
   (85, ("Slight snow showers", "snow")),
   (86, ("Heavy snow showers", "snow")),
   (95, ("Thunderstorm", "storm")),
   (96, ("Thunderstorm with slight hail", "storm")),
   (99, ("Thunderstorm with heavy hail", "storm"))]

/-- Python `dict.get(code, default)` over the integer-keyed WMO table. -/
def dictGetZ : List (ℤ × String × String) → ℤ → Option (String × String)
  | [], _ => none
  | (k, v) :: rest, c => if c = k then some v else dictGetZ rest c

/-- `WeatherCodeMapper.get_description`. -/
def get_description (code : ℤ) : String :=
  ((dictGetZ WMO_CODES code).getD ("Unknown", "unknown")).1

/-- `WeatherCodeMapper.get_condition`. -/
def get_condition (code : ℤ) : String :=
  ((dictGetZ WMO_CODES code).getD ("Unknown", "unknown")).2

/-- The codes the spec documents as being in the WMO table. -/
def knownCodes : List ℤ :=
  [0, 1, 2, 3, 45, 48, 51, 53, 55, 56, 57, 61, 63, 65, 66, 67, 80, 81, 82,
   71, 73, 75, 77, 85, 86, 95, 96, 99]

/-- The category mapping exactly as the spec documents it:
0/1→clear, 2/3→cloudy, 45/48→fog, 51/53/55/56/57/61/63/65/66/67/80/81/82→rain,
71/73/75/77/85/86→snow, 95/96/99→storm, anything else→unknown. -/
def specCondition (c : ℤ) : String :=
  if c = 0 ∨ c = 1 then "clear"
  else if c = 2 ∨ c = 3 then "cloudy"
  else if c = 45 ∨ c = 48 then "fog"
  else if c = 51 ∨ c = 53 ∨ c = 55 ∨ c = 56 ∨ c = 57 ∨ c = 61 ∨ c = 63 ∨
          c = 65 ∨ c = 66 ∨ c = 67 ∨ c = 80 ∨ c = 81 ∨ c = 82 then "rain"
  else if c = 71 ∨ c = 73 ∨ c = 75 ∨ c = 77 ∨ c = 85 ∨ c = 86 then "snow"
  else if c = 95 ∨ c = 96 ∨ c = 99 then "storm"
  else "unknown"

/-! ### Python string and number helpers -/

/-- The whitespace characters stripped by Python `str.strip()` (ASCII part;
the claims only involve ordinary blanks and tabs). -/
def pyIsSpace (c : Char) : Bool :=
  c = ' ' || c = '\t' || c = '\n' || c = '\r' || c = '\x0b' || c = '\x0c'

/-- Python `str.strip()`: remove leading and trailing whitespace. -/
def pyStrip (s : String) : String :=
  ⟨((s.data.dropWhile pyIsSpace).reverse.dropWhile pyIsSpace).reverse⟩

/-- Helper for `pyTitle`: the boolean records whether the previous character
was alphabetic. -/
def pyTitleAux : List Char → Bool → List Char
  | [], _ => []
  | c :: cs, prevAlpha =>
    (if c.isAlpha then (if prevAlpha then c.toLower else c.toUpper) else c)
      :: pyTitleAux cs c.isAlpha

/-- Python `str.title()` (restricted to ASCII letter casing, which covers the
condition strings it is applied to). -/
def pyTitle (s : String) : String := ⟨pyTitleAux s.data false⟩

/-- Python `int(q)` on a float: truncation toward zero. -/
def pyInt (q : ℚ) : ℤ := if 0 ≤ q then ⌊q⌋ else ⌈q⌉

/-- `str.replace("Z", "+00:00")` as used on the daily `time` entries
(single-character pattern, so plain character-wise expansion). -/
def pyReplaceZ (s : String) : String :=
  ⟨s.data.flatMap fun c => if c = 'Z' then "+00:00".data else [c]⟩

/-! ### Temperature gauge (`WeatherService.create_temp_bar`, lines 275-299)

`create_temp_bar` computes a marker position `pos` and a list `bar_chars` of
`bar_length = 50` interior cells, then wraps the cells in `[`…`]` between two
range labels and a `Current: {temp}°C` line.  The claims are about the cells
and the marker position, so those are what is embedded; the surrounding label
text is literal framing around `bar_chars`. -/

/-- The marker position computed by `create_temp_bar` (lines 276-282):
0 below the range, `bar_length - 1` above it, otherwise Python `int()`
truncation of the linear interpolation. -/
def create_temp_bar_pos (temp mn mx : ℚ) : ℤ :=
  if temp < mn then 0
  else if temp > mx then 49
  else pyInt ((temp - mn) / (mx - mn) * 49)

/-- The fill character left of the marker, chosen by temperature band
(lines 289-294). -/
def tempFillChar (temp : ℚ) : Char :=
  if temp < 0 then '▓' else if temp < 20 then '▒' else '░'

/-- The `bar_chars` list built by the loop in lines 284-296. -/
def create_temp_bar_cells (temp mn mx : ℚ) : List Char :=
  (List.range 50).map fun (i : ℕ) =>
    if (i : ℤ) = create_temp_bar_pos temp mn mx then '●'
    else if (i : ℤ) < create_temp_bar_pos temp mn mx then tempFillChar temp
    else '.'

/-- Modelled from the spec: the claimed marker-position formula
`clamp(round((temp - minRange) / (maxRange - minRange) * (barLength - 1)), 0,
barLength - 1)` at the default range. -/
def claimRoundPos (t : ℚ) : ℤ :=
  max 0 (min 49 (round ((t - (-20)) / (50 - (-20)) * 49)))

/-! ### TerminalGraphRenderer (`TerminalGraph.create_line_graph`,
`src/services/weather_models.py` lines 102-142) -/

/-- Python `min(list)` on a nonempty list (the guard ensures nonemptiness). -/
def listMin : List ℚ → ℚ
  | [] => 0
  | x :: xs => xs.foldl min x

/-- Python `max(list)` on a nonempty list. -/
def listMax : List ℚ → ℚ
  | [] => 0
  | x :: xs => xs.foldl max x

/-- Format a rational the way `f"{y:6.1f}"` formats a float: one decimal
digit, right-justified in 6 characters.  The decimal digit is produced by
rounding; the exact tie-breaking convention of IEEE doubles is immaterial
here, no claim inspects the graph body. -/
def fmt61 (q : ℚ) : String :=
  let n : ℤ := round (q * 10)
  let core := (if n < 0 then "-" else "") ++ toString (n.natAbs / 10) ++ "." ++
    toString (n.natAbs % 10)
  String.mk (List.replicate (6 - core.length) ' ') ++ core

/-- `TerminalGraph.create_line_graph`: render a numeric series as an ASCII
line chart, or return the fixed insufficient-data placeholder when the guard
`not data or len(data) != len(labels) or len(data) < 2` fires. -/
def create_line_graph (data : List ℚ) (labels : List String) (title : String)
    (height : ℕ := 10) (unit : String := "") : String :=
  if data = [] ∨ data.length ≠ labels.length ∨ data.length < 2 then
    "\n[GRAPH] " ++ title ++ "\nInsufficient data for graph display"
  else
    let min_val := listMin data
    let max_val := listMax data
    let range_val := if min_val ≠ max_val then max_val - min_val else 1
    let normalized := data.map fun v => (v - min_val) / range_val * ((height : ℚ) - 1)
    let rows := (List.range height).reverse.map fun (row : ℕ) =>
      let y_value := max_val - ((row : ℚ) * range_val / ((height : ℚ) - 1))
      fmt61 y_value ++ unit ++ " |" ++
        String.join (normalized.enum.map fun p =>
          (if |p.2 - (row : ℚ)| < 1/2 then "●"
           else if 0 < p.1 then
             let prev_val := (normalized.get? (p.1 - 1)).getD 0
             if (prev_val ≤ (row : ℚ) ∧ (row : ℚ) ≤ p.2) ∨
                (p.2 ≤ (row : ℚ) ∧ (row : ℚ) ≤ prev_val) then "─" else " "
           else " ") ++ " ")
    let x_axis := "        +" ++ String.mk (List.replicate (2 * data.length - 1) '─')
    let label_line := "         " ++
      String.intercalate "  " (labels.map fun l => l.take 3)
    String.intercalate "\n"
      (["\n[GRAPH] " ++ title, String.mk (List.replicate 60 '=')] ++ rows ++
        [x_axis, label_line])

/-! ### Coordinate lookup (`WeatherService.get_coordinates`, lines 33-65) -/

/-- One entry of the geocoding response's `results` list; `country` and
`admin1` are read with `.get` and may be absent. -/
structure GeoLocation where
  latitude : ℚ
  longitude : ℚ
  name : String
  country : Option String
  admin1 : Option String

/-- Outcome of `_make_request` on the geocoding URL: `fail` models a falsy
result (request failure, bad JSON, or an empty object), `ok results` a truthy
JSON object whose optional `results` key holds a list. -/
inductive GeoFetch : Type where
  | fail
  | ok (results : Option (List GeoLocation))

/-- The coordinates dictionary built by a successful `get_coordinates`. -/
structure Coordinates where
  lat : ℚ
  lon : ℚ
  name : String
  country : String
  admin1 : String

/-- A network request issued to one of the external collaborators. -/
inductive Call : Type where
  | geo (name : String)
  | currentReq (lat lon : ℚ)
  | forecastReq (lat lon : ℚ) (days : ℤ)
deriving DecidableEq

/-- `WeatherService.get_coordinates`, with the geocoding collaborator as an
oracle.  Python's `{"error": msg}` convention is modelled as `.error msg`;
alongside the result the embedding returns the list of collaborator requests
issued, in order. -/
def get_coordinates (geo : String → GeoFetch) (city : String) :
    Except String Coordinates × List Call :=
  if city = "" ∨ pyStrip city = "" then
    (.error "City name cannot be empty", [])
  else
    let c := pyStrip city
    match geo c with
    | .fail => (.error ("Failed to fetch coordinates for " ++ c), [.geo c])
    | .ok none => (.error ("City \x27" ++ c ++ "\x27 not found"), [.geo c])
    | .ok (some []) => (.error ("City \x27" ++ c ++ "\x27 not found"), [.geo c])
    | .ok (some (loc :: _)) =>
      (.ok { lat := loc.latitude, lon := loc.longitude, name := loc.name,
             country := loc.country.getD "Unknown",
             admin1 := loc.admin1.getD "" }, [.geo c])

/-! ### Current weather (`WeatherService.get_current_weather`, lines 89-166) -/

/-- The optional fields of the upstream `current` object; every field is read
with `.get`, so each may be absent. -/
structure RawCurrent where
  temperature_2m : Option ℚ
  relative_humidity_2m : Option ℚ
  apparent_temperature : Option ℚ
  precipitation : Option ℚ
  weather_code : Option ℤ
  surface_pressure : Option ℚ
  wind_speed_10m : Option ℚ
  wind_direction_10m : Option ℚ
  time : Option String

/-- `current.get(key)` for a float field: absent becomes JSON null. -/
def optQ (o : Option ℚ) : J := o.elim J.null J.q

/-- `current.get(key)` for a string field: absent becomes JSON null. -/
def optS (o : Option String) : J := o.elim J.null J.s

/-- The `result` dict literal of `get_current_weather` (lines 117-163),
entry for entry in source order — including the two `"weather"` entries of
the Python literal, whose duplicate-key semantics `dictLit` reproduces. -/
def normalizeCurrent (coords : Coordinates) (cur : RawCurrent) : J :=
  let weather_code := cur.weather_code.getD 0
  let description := get_description weather_code
  let condition := get_condition weather_code
  .obj (dictLit [
    ("location", .obj (dictLit [
      ("name", .s coords.name),
      ("country", .s coords.country),
      ("coordinates", .obj (dictLit [("lat", .q coords.lat),
        ("lon", .q coords.lon)]))])),
    ("current", .obj (dictLit [
      ("temperature", optQ cur.temperature_2m),
      ("feels_like", optQ cur.apparent_temperature),
      ("humidity", optQ cur.relative_humidity_2m),
      ("pressure", optQ cur.surface_pressure),
      ("wind_speed", optQ cur.wind_speed_10m),
      ("wind_direction", optQ cur.wind_direction_10m),
      ("precipitation", .q (cur.precipitation.getD 0))])),
    ("weather", .obj (dictLit [
      ("code", .z weather_code),
      ("description", .s description),
      ("condition", .s condition)])),
    ("timestamp", optS cur.time),
    ("name", .s coords.name),
    ("main", .obj (dictLit [
      ("temp", optQ cur.temperature_2m),
      ("feels_like", optQ cur.apparent_temperature),
      ("humidity", optQ cur.relative_humidity_2m),
      ("pressure", optQ cur.surface_pressure)])),
    ("weather", .arr [.obj (dictLit [
      ("main", .s (pyTitle condition)),
      ("description", .s description)])]),
    ("wind", .obj (dictLit [
      ("speed", optQ cur.wind_speed_10m),
      ("deg", optQ cur.wind_direction_10m)]))])

/-- `WeatherService.get_current_weather`, oracle-parameterized; `cw` returning
`none` models a failed request or a response without a `current` key. -/
def get_current_weather (geo : String → GeoFetch)
    (cw : ℚ → ℚ → Option RawCurrent) (city : String) :
    Except String J × List Call :=
  match get_coordinates geo city with
  | (.error e, log) => (.error e, log)
  | (.ok coords, log) =>
    match cw coords.lat coords.lon with
    | none => (.error ("Failed to fetch weather data for " ++ coords.name),
               log ++ [.currentReq coords.lat coords.lon])
    | some cur => (.ok (normalizeCurrent coords cur),
                   log ++ [.currentReq coords.lat coords.lon])

/-! ### Dates (`datetime.fromisoformat` / `.timestamp()` as used in
`get_forecast`, lines 202 and 224) -/

/-- A parsed civil date. -/
structure PyDate where
  year : ℤ
  month : ℕ
  day : ℕ

/-- Gregorian leap-year test. -/
def isLeap (y : ℤ) : Bool := (y % 4 == 0 && y % 100 != 0) || y % 400 == 0

/-- Number of days in a month. -/
def daysInMonth (y : ℤ) (m : ℕ) : ℕ :=
  if m = 2 then (if isLeap y then 29 else 28)
  else if m = 4 ∨ m = 6 ∨ m = 9 ∨ m = 11 then 30
  else 31

/-- Value of an ASCII digit character. -/
def digitVal (c : Char) : ℕ := c.toNat - 48

/-- Modelled core of `datetime.fromisoformat`, restricted to the `YYYY-MM-DD`
date-only form that the upstream daily `time` entries use; a malformed or
invalid date raises `ValueError`, i.e. returns `none`. -/
def fromisoformat (s : String) : Option PyDate :=
  match s.data with
  | [y1, y2, y3, y4, c1, m1, m2, c2, d1, d2] =>
    if y1.isDigit ∧ y2.isDigit ∧ y3.isDigit ∧ y4.isDigit ∧ c1 = '-' ∧
       m1.isDigit ∧ m2.isDigit ∧ c2 = '-' ∧ d1.isDigit ∧ d2.isDigit then
      let y : ℤ :=
        (1000 * digitVal y1 + 100 * digitVal y2 + 10 * digitVal y3 + digitVal y4 : ℕ)
      let m := 10 * digitVal m1 + digitVal m2
      let d := 10 * digitVal d1 + digitVal d2
      if 1 ≤ m ∧ m ≤ 12 ∧ 1 ≤ d ∧ d ≤ daysInMonth y m then some ⟨y, m, d⟩
      else none
    else none
  | _ => none

/-- Days since 1970-01-01 of a civil date (standard era-based algorithm). -/
def days_from_civil (y : ℤ) (m d : ℕ) : ℤ :=
  let yAdj := if m ≤ 2 then y - 1 else y
  let era := (if 0 ≤ yAdj then yAdj else yAdj - 399) / 400
  let yoe := yAdj - era * 400
  let mp := ((m : ℤ) + 9) % 12
  let doy := (153 * mp + 2) / 5 + (d : ℤ) - 1
  let doe := yoe * 365 + yoe / 4 - yoe / 100 + doy
  era * 146097 + doe - 719468

/-- `datetime.timestamp()` of the parsed date at midnight, in seconds (UTC;
the host-timezone offset Python would apply is not modelled — no claim
inspects `dt`). -/
def timestampOf (dt : PyDate) : ℚ :=
  86400 * (days_from_civil dt.year dt.month dt.day : ℚ)

/-! ### Forecast (`WeatherService.get_forecast`, lines 168-254) -/

/-- The arrays of the upstream `daily` object; each key is accessed with
`[...]`, so a missing key is a `KeyError` — hence `Option` around each
list. -/
structure RawDaily where
  time : Option (List String)
  temperature_2m_max : Option (List ℚ)
  temperature_2m_min : Option (List ℚ)
  weather_code : Option (List ℤ)
  precipitation_sum : Option (List ℚ)
  wind_speed_10m_max : Option (List ℚ)
  wind_direction_10m_dominant : Option (List ℚ)

/-- The `forecast_item` dict literal built for day index `i` (lines 207-238),
entry for entry in source order.  The duplicated `"weather"` and `"wind"` keys
of the Python literal are reproduced by `dictLit`. -/
def mkForecastItem (t : String) (date : PyDate) (code : ℤ)
    (tmax tmin p ws wd : ℚ) : J :=
  let desc := get_description code
  let cond := get_condition code
  .obj (dictLit [
    ("date", .s t),
    ("temperature", .obj (dictLit [("max", .q tmax), ("min", .q tmin)])),
    ("weather", .obj (dictLit [("code", .z code), ("description", .s desc),
      ("condition", .s cond)])),
    ("precipitation", .q p),
    ("wind", .obj (dictLit [("speed", .q ws), ("direction", .q wd)])),
    ("dt", .q (timestampOf date)),
    ("main", .obj (dictLit [("temp", .q tmax), ("temp_min", .q tmin),
      ("temp_max", .q tmax), ("humidity", .q 65)])),
    ("weather", .arr [.obj (dictLit [("main", .s (pyTitle cond)),
      ("description", .s desc)])]),
    ("wind", .obj (dictLit [("speed", .q ws)]))])

/-- The body of the normalization loop for day index `i` (lines 201-238):
reads `daily[key][i]` for each key and parses the date; any missing key,
short array, or unparsable date is an uncaught exception (`none`). -/
def forecastItem (daily : RawDaily) (i : ℕ) : Option J :=
  match daily.time, daily.weather_code, daily.temperature_2m_max,
        daily.temperature_2m_min, daily.precipitation_sum,
        daily.wind_speed_10m_max, daily.wind_direction_10m_dominant with
  | some times, some codes, some tmaxs, some tmins, some psums, some wss, some wds =>
    match times[i]?, codes[i]?, tmaxs[i]?, tmins[i]?, psums[i]?, wss[i]?, wds[i]? with
    | some t, some code, some tmax, some tmin, some p, some ws, some wd =>
      match fromisoformat (pyReplaceZ t) with
      | some date => some (mkForecastItem t date code tmax tmin p ws wd)
      | none => none
    | _, _, _, _, _, _, _ => none
  | _, _, _, _, _, _, _ => none

/-- The normalization loop and `result` literal of `get_forecast`
(lines 198-251): `min(days, len(daily["time"]))` items, then the result
object with canonical and legacy views. -/
def forecastResult (coords : Coordinates) (daily : RawDaily) (days : ℤ) :
    Option J :=
  match daily.time with
  | none => none
  | some times =>
    match (List.range (min days.toNat times.length)).mapM (forecastItem daily) with
    | none => none
    | some items =>
      some (.obj (dictLit [
        ("location", .obj (dictLit [("name", .s coords.name),
          ("country", .s coords.country)])),
        ("forecast", .arr items),
        ("list", .arr items),
        ("city", .obj (dictLit [("name", .s coords.name)]))]))

/-- `WeatherService.get_forecast`, oracle-parameterized.  The first component
is `none` when the normalization loop raises an uncaught exception, otherwise
`some` of the error object or the normalized result; the second component is
the ordered collaborator-call log. -/
def get_forecast (geo : String → GeoFetch)
    (fc : ℚ → ℚ → ℤ → Option RawDaily) (city : String) (days : ℤ) :
    Option (Except String J) × List Call :=
  match get_coordinates geo city with
  | (.error e, log) => (some (.error e), log)
  | (.ok coords, log) =>
    if days < 1 ∨ days > 7 then
      (some (.error "Days must be between 1 and 7"), log)
    else
      let log2 := log ++ [.forecastReq coords.lat coords.lon days]
      match fc coords.lat coords.lon days with
      | none =>
        (some (.error ("Failed to fetch forecast data for " ++ coords.name)), log2)
      | some daily =>
        match forecastResult coords daily days with
        | none => (none, log2)
        | some j => (some (.ok j), log2)

/-- Well-formedness of a `k`-day upstream daily response: every array is
present with `k` entries and every time entry parses as a date. -/
def wf_daily (daily : RawDaily) (k : ℕ) : Prop :=
  daily.time.map List.length = some k ∧
  daily.temperature_2m_max.map List.length = some k ∧
  daily.temperature_2m_min.map List.length = some k ∧
  daily.weather_code.map List.length = some k ∧
  daily.precipitation_sum.map List.length = some k ∧
  daily.wind_speed_10m_max.map List.length = some k ∧
  daily.wind_direction_10m_dominant.map List.length = some k ∧
  ∀ ts, daily.time = some ts →
    ∀ s ∈ ts, (fromisoformat (pyReplaceZ s)).isSome

/-! ### Concrete fixtures used by counterexamples and witnesses -/

/-- A geocoding oracle that always finds London. -/
def geoLondon : String → GeoFetch := fun _ =>
  .ok (some [{ latitude := 51.5, longitude := -1/8, name := "London",
               country := some "United Kingdom", admin1 := some "England" }])

/-- The coordinates `get_coordinates geoLondon "London"` produces. -/
def londonCoords : Coordinates :=
  { lat := 51.5, lon := -1/8, name := "London", country := "United Kingdom",
    admin1 := "England" }

/-- A fully populated raw current-weather sample with weather code 0. -/
def sampleCurrent : RawCurrent :=
  { temperature_2m := some 15, relative_humidity_2m := some 70,
    apparent_temperature := some 14, precipitation := some 0,
    weather_code := some 0, surface_pressure := some 1012,
    wind_speed_10m := some 5, wind_direction_10m := some 180,
    time := some "2024-01-01T00:00" }

/-- A fully populated one-day raw daily sample. -/
def sampleDaily : RawDaily :=
  { time := some ["2024-01-01"], temperature_2m_max := some [10],
    temperature_2m_min := some [2], weather_code := some [0],
    precipitation_sum := some [0], wind_speed_10m_max := some [10],
    wind_direction_10m_dominant := some [90] }

/-- The same daily sample with the `precipitation_sum` key absent. -/
def sampleDailyNoPrecip : RawDaily :=
  { sampleDaily with precipitation_sum := none }

/-- A fully populated three-day raw daily sample. -/
def sampleDaily3 : RawDaily :=
  { time := some ["2024-01-01", "2024-01-02", "2024-01-03"],
    temperature_2m_max := some [10, 11, 12],
    temperature_2m_min := some [2, 3, 4],
    weather_code := some [0, 61, 95],
    precipitation_sum := some [0, 5, 2],
    wind_speed_10m_max := some [10, 12, 14],
    wind_direction_10m_dominant := some [90, 180, 270] }

/-! ## Theorems -/

/-! ### Temperature gauge lemmas -/

/-- With the default range, the position is the clamped floor of the linear
interpolation (the interpolant is nonnegative in the interior branch, so
Python `int()` truncation is a floor there). -/
theorem temp_bar_pos_closed (t : ℚ) :
    create_temp_bar_pos t (-20) 50 =
      if t < -20 then 0 else if t > 50 then 49
        else ⌊(t - (-20)) / (50 - (-20)) * 49⌋ := by
  by_cases h1 : t < -20
  · simp [create_temp_bar_pos, h1]
  · by_cases h2 : t > 50
    · simp [create_temp_bar_pos, h1, h2]
    · have hv : 0 ≤ (t - (-20)) / (50 - (-20)) * 49 := by
        apply mul_nonneg
        · apply div_nonneg <;> linarith
        · norm_num
      simp only [create_temp_bar_pos, pyInt]
      rw [if_neg h1, if_neg h2, if_pos hv, if_neg h1, if_neg h2]

theorem temp_bar_pos_bounds (t : ℚ) :
    0 ≤ create_temp_bar_pos t (-20) 50 ∧ create_temp_bar_pos t (-20) 50 ≤ 49 := by
  rw [temp_bar_pos_closed]
  by_cases h1 : t < -20
  · simp [h1]
  · by_cases h2 : t > 50
    · simp [h1, h2]
    · have hv : 0 ≤ (t - (-20)) / (50 - (-20)) * 49 := by
        apply mul_nonneg
        · apply div_nonneg <;> linarith
        · norm_num
      have hv49 : (t - (-20)) / (50 - (-20)) * 49 ≤ 49 := by
        have hd : (t - (-20)) / (50 - (-20)) ≤ 1 := by
          rw [div_le_one (by norm_num : (0:ℚ) < 50 - (-20))]
          linarith
        calc (t - (-20)) / (50 - (-20)) * 49 ≤ 1 * 49 :=
              mul_le_mul_of_nonneg_right hd (by norm_num)
          _ = 49 := by norm_num
      rw [if_neg h1, if_neg h2]
      refine ⟨Int.le_floor.mpr (by push_cast; exact hv), ?_⟩
      have hfl : (⌊(t - (-20)) / (50 - (-20)) * 49⌋ : ℚ) ≤ 49 :=
        le_trans (Int.floor_le _) hv49
      exact_mod_cast hfl

theorem temp_bar_pos_mono (t1 t2 : ℚ) (h : t1 ≤ t2) :
    create_temp_bar_pos t1 (-20) 50 ≤ create_temp_bar_pos t2 (-20) 50 := by
  rw [temp_bar_pos_closed, temp_bar_pos_closed]
  by_cases a1 : t1 < -20
  · rw [if_pos a1]
    have := temp_bar_pos_bounds t2
    rw [temp_bar_pos_closed] at this
    exact this.1
  · by_cases a2 : t1 > 50
    · have b2 : t2 > 50 := by linarith
      have b1 : ¬ t2 < -20 := by linarith
      rw [if_neg a1, if_pos a2, if_neg b1, if_pos b2]
    · have b1 : ¬ t2 < -20 := by linarith
      by_cases b2 : t2 > 50
      · rw [if_neg a1, if_neg a2, if_neg b1, if_pos b2]
        have := temp_bar_pos_bounds t1
        rw [temp_bar_pos_closed, if_neg a1, if_neg a2] at this
        exact this.2
      · rw [if_neg a1, if_neg a2, if_neg b1, if_neg b2]
        apply Int.floor_le_floor
        gcongr

theorem temp_bar_cells_get (t mn mx : ℚ) (i : ℕ) (hi : i < 50) :
    (create_temp_bar_cells t mn mx)[i]? = some (
      if (i : ℤ) = create_temp_bar_pos t mn mx then '●'
      else if (i : ℤ) < create_temp_bar_pos t mn mx then tempFillChar t
      else '.') := by
  rw [create_temp_bar_cells, List.getElem?_map, List.getElem?_range hi, Option.map_some']

theorem temp_bar_marker (t : ℚ) :
    (create_temp_bar_cells t (-20) 50)[(create_temp_bar_pos t (-20) 50).toNat]? =
      some '●' := by
  obtain ⟨hl, hu⟩ := temp_bar_pos_bounds t
  have hpn : (create_temp_bar_pos t (-20) 50).toNat < 50 := by omega
  rw [temp_bar_cells_get _ _ _ _ hpn]
  have hcast : ((create_temp_bar_pos t (-20) 50).toNat : ℤ) =
      create_temp_bar_pos t (-20) 50 := Int.toNat_of_nonneg hl
  simp [hcast]

theorem temp_bar_marker_unique (t : ℚ) (i : ℕ) (hi : i < 50)
    (hne : i ≠ (create_temp_bar_pos t (-20) 50).toNat) :
    (create_temp_bar_cells t (-20) 50)[i]? ≠ some '●' := by
  rw [temp_bar_cells_get _ _ _ _ hi]
  obtain ⟨hl, hu⟩ := temp_bar_pos_bounds t
  have hiz : (i : ℤ) ≠ create_temp_bar_pos t (-20) 50 := by omega
  rw [if_neg hiz]
  split_ifs
  · unfold tempFillChar
    split_ifs <;> decide
  · decide

/-! ### Claims C4 and C9 -/

/-- Claim C4 counterexample: at temp = -19 the interpolant is 0.7; the code
truncates it to position 0 while the claimed formula rounds it to 1. -/
theorem c4_round_counterexample :
    create_temp_bar_pos (-19) (-20) 50 = 0 ∧ claimRoundPos (-19) = 1 ∧
    create_temp_bar_pos (-19) (-20) 50 ≠ claimRoundPos (-19) := by
  have h1 : create_temp_bar_pos (-19) (-20) 50 = 0 := by
    rw [temp_bar_pos_closed]
    norm_num
  have hr : round (((-19 : ℚ) - (-20)) / (50 - (-20)) * 49) = 1 := by
    rw [round_eq]
    norm_num
  have h2 : claimRoundPos (-19) = 1 := by
    rw [claimRoundPos, hr]
    decide
  exact ⟨h1, h2, by rw [h1, h2]; decide⟩

/-- Claim C4 (amended): the marker position is the clamped linear
interpolation with Python `int()` truncation — a floor, since the interior
interpolant is nonnegative — rather than rounding: pos = 0 for temp below the
range, barLength - 1 above it, and `⌊(temp - minRange) / (maxRange - minRange)
* (barLength - 1)⌋` in between; the marker cell sits exactly at pos. -/
theorem c4_gauge_position (t : ℚ) :
    create_temp_bar_pos t (-20) 50 =
      (if t < -20 then 0 else if t > 50 then 49
       else ⌊(t - (-20)) / (50 - (-20)) * 49⌋) ∧
    (create_temp_bar_cells t (-20) 50)[(create_temp_bar_pos t (-20) 50).toNat]? =
      some '●' :=
  ⟨temp_bar_pos_closed t, temp_bar_marker t⟩

/-- Claim C9: the gauge always has exactly 50 interior cells of which exactly
one is the marker; the marker position is monotone non-decreasing in the
temperature and clamps at both ends (temp = -100 ↦ pos 0, temp = 100 ↦
pos 49). -/
theorem c9_gauge_invariants :
    (∀ t : ℚ, (create_temp_bar_cells t (-20) 50).length = 50 ∧
      (create_temp_bar_cells t (-20) 50)[(create_temp_bar_pos t (-20) 50).toNat]? =
        some '●' ∧
      ∀ i : ℕ, i < 50 → i ≠ (create_temp_bar_pos t (-20) 50).toNat →
        (create_temp_bar_cells t (-20) 50)[i]? ≠ some '●') ∧
    (∀ t1 t2 : ℚ, t1 ≤ t2 →
      create_temp_bar_pos t1 (-20) 50 ≤ create_temp_bar_pos t2 (-20) 50) ∧
    create_temp_bar_pos (-100) (-20) 50 = 0 ∧
    create_temp_bar_pos 100 (-20) 50 = 49 := by
  refine ⟨fun t => ⟨by simp [create_temp_bar_cells], temp_bar_marker t,
      fun i hi hne => temp_bar_marker_unique t i hi hne⟩,
    temp_bar_pos_mono, ?_, ?_⟩
  · rw [temp_bar_pos_closed]
    norm_num
  · rw [temp_bar_pos_closed]
    norm_num

/-- Witness for C9 at concrete temperatures 0 and 1. -/
theorem c9_gauge_invariants_app :
    (create_temp_bar_cells 0 (-20) 50).length = 50 ∧
    create_temp_bar_pos 0 (-20) 50 ≤ create_temp_bar_pos 1 (-20) 50 ∧
    (create_temp_bar_cells 0 (-20) 50)[0]? ≠ some '●' := by
  have hp0 : create_temp_bar_pos 0 (-20) 50 = 14 := by
    rw [temp_bar_pos_closed]
    norm_num
  exact ⟨(c9_gauge_invariants.1 0).1,
    c9_gauge_invariants.2.1 0 1 (by norm_num),
    (c9_gauge_invariants.1 0).2.2 0 (by norm_num) (by rw [hp0]; decide)⟩

/-! ### Claim C7 -/

/-- Claim C7: the weather-code mapper is a pure total function over all
integers: for every code in the documented WMO table it returns the documented
(description, category) pair — in particular the category agrees with the
documented group table for every integer — and every integer outside the
table maps to ("Unknown", "unknown"). -/
theorem c7_wmo_mapper_total (c : ℤ) :
    get_condition c = specCondition c ∧
    (c ∉ knownCodes → get_description c = "Unknown" ∧ get_condition c = "unknown") := by
  by_cases hc : c ∈ knownCodes
  · simp only [knownCodes, List.mem_cons, List.not_mem_nil, or_false] at hc
    rcases hc with rfl | rfl | rfl | rfl | rfl | rfl | rfl | rfl | rfl | rfl | rfl | rfl |
      rfl | rfl | rfl | rfl | rfl | rfl | rfl | rfl | rfl | rfl | rfl | rfl | rfl | rfl |
      rfl | rfl <;>
    exact ⟨by decide, fun h => absurd (by decide) h⟩
  · simp only [knownCodes, List.mem_cons, List.not_mem_nil, or_false, not_or] at hc
    obtain ⟨h0, h1, h2, h3, h45, h48, h51, h53, h55, h56, h57, h61, h63, h65, h66, h67,
      h80, h81, h82, h71, h73, h75, h77, h85, h86, h95, h96, h99⟩ := hc
    have hdg : dictGetZ WMO_CODES c = none := by
      simp [WMO_CODES, dictGetZ, h0, h1, h2, h3, h45, h48, h51, h53, h55, h56, h57, h61,
        h63, h65, h66, h67, h80, h81, h82, h71, h73, h75, h77, h85, h86, h95, h96, h99]
    have hsc : specCondition c = "unknown" := by
      simp [specCondition, h0, h1, h2, h3, h45, h48, h51, h53, h55, h56, h57, h61,
        h63, h65, h66, h67, h80, h81, h82, h71, h73, h75, h77, h85, h86, h95, h96, h99]
    exact ⟨by simp [get_condition, hdg, hsc], fun _ =>
      ⟨by simp [get_description, hdg], by simp [get_condition, hdg]⟩⟩

/-- Witness for C7 at the concrete codes 0 (in the table) and 100 (outside). -/
theorem c7_wmo_mapper_total_app :
    get_condition 0 = specCondition 0 ∧
    get_description 100 = "Unknown" ∧ get_condition 100 = "unknown" :=
  ⟨(c7_wmo_mapper_total 0).1, (c7_wmo_mapper_total 100).2 (by decide)⟩

/-! ### Claim C8 -/

/-- Claim C8: with fewer than 2 samples or mismatched lengths the renderer
returns the fixed insufficient-data placeholder, which contains the title;
the embedding is a total function, so no exception is possible. -/
theorem c8_insufficient_data (data : List ℚ) (labels : List String)
    (title : String) (height : ℕ) (unit : String)
    (h : data.length < 2 ∨ data.length ≠ labels.length) :
    create_line_graph data labels title height unit =
      "\n[GRAPH] " ++ title ++ "\nInsufficient data for graph display" ∧
    ∃ pre post, create_line_graph data labels title height unit =
      pre ++ title ++ post := by
  have hg : data = [] ∨ data.length ≠ labels.length ∨ data.length < 2 := by
    rcases h with h | h
    · exact Or.inr (Or.inr h)
    · exact Or.inr (Or.inl h)
  rw [create_line_graph, if_pos hg]
  exact ⟨rfl, "\n[GRAPH] ", "\nInsufficient data for graph display", rfl⟩

/-- Witness for C8: a single sample with mismatched label list. -/
theorem c8_insufficient_data_app :
    create_line_graph [3] [] "T" 10 "" =
      "\n[GRAPH] " ++ "T" ++ "\nInsufficient data for graph display" :=
  (c8_insufficient_data [3] [] "T" 10 "" (by norm_num)).1

/-! ### Claim C10 -/

/-- Claim C10: an empty or whitespace-only city yields the
"City name cannot be empty" error immediately, with no request issued to the
geocoding collaborator (the call log is empty, for every collaborator). -/
theorem c10_empty_city (geo : String → GeoFetch) (city : String)
    (h : pyStrip city = "") :
    get_coordinates geo city = (.error "City name cannot be empty", []) := by
  rw [get_coordinates, if_pos (Or.inr h)]

/-- Witness for C10 on a whitespace-only city. -/
theorem c10_empty_city_app :
    get_coordinates (fun _ => GeoFetch.fail) "  " =
      (.error "City name cannot be empty", []) :=
  c10_empty_city _ "  " (by decide)

/-! ### Claim C3 -/

/-- Claim C3: in every successfully normalized current-weather response the
canonical view and the legacy view carry equal underlying values:
`current.temperature = main.temp`, `current.feels_like = main.feels_like`,
`current.humidity = main.humidity`, `current.pressure = main.pressure`,
`current.wind_speed = wind.speed` and `current.wind_direction = wind.deg`. -/
theorem c3_cross_shape_consistency (coords : Coordinates) (cur : RawCurrent) :
    objGet2 (normalizeCurrent coords cur) "current" "temperature" =
      objGet2 (normalizeCurrent coords cur) "main" "temp" ∧
    objGet2 (normalizeCurrent coords cur) "current" "feels_like" =
      objGet2 (normalizeCurrent coords cur) "main" "feels_like" ∧
    objGet2 (normalizeCurrent coords cur) "current" "humidity" =
      objGet2 (normalizeCurrent coords cur) "main" "humidity" ∧
    objGet2 (normalizeCurrent coords cur) "current" "pressure" =
      objGet2 (normalizeCurrent coords cur) "main" "pressure" ∧
    objGet2 (normalizeCurrent coords cur) "current" "wind_speed" =
      objGet2 (normalizeCurrent coords cur) "wind" "speed" ∧
    objGet2 (normalizeCurrent coords cur) "current" "wind_direction" =
      objGet2 (normalizeCurrent coords cur) "wind" "deg" :=
  ⟨rfl, rfl, rfl, rfl, rfl, rfl⟩

/-! ### Claim C1 -/

/-- Claim C1 exhibits a code bug: on a successfully normalized current
response the canonical `weather` object `{code, description, condition}` is
absent — the duplicated `"weather"` key of the Python dict literal leaves only
the legacy list — and a normalized forecast item's `wind` is the legacy
`{speed}` object, with no `direction` key, because of the duplicated
`"wind"` key. -/
theorem c1_duplicate_key_bug :
    objGet (normalizeCurrent londonCoords sampleCurrent) "weather" =
      some (.arr [.obj [("main", .s "Clear"), ("description", .s "Clear sky")]]) ∧
    objGet2 (normalizeCurrent londonCoords sampleCurrent) "weather" "code" = none ∧
    (forecastItem sampleDaily 0).bind (fun j => objGet j "wind") =
      some (.obj [("speed", .q 10)]) ∧
    (forecastItem sampleDaily 0).bind (fun j => objGet2 j "wind" "direction") =
      none :=
  ⟨rfl, rfl, rfl, rfl⟩

/-! ### Claim C2 -/

/-- Every collaborator request issued by `get_coordinates` is a geocoding
request. -/
theorem get_coordinates_calls (geo : String → GeoFetch) (city : String) :
    ∀ e ∈ (get_coordinates geo city).2, ∃ n, e = Call.geo n := by
  rw [get_coordinates]
  split_ifs with h
  · intro e he
    simp at he
  · rcases hg : geo (pyStrip city) with _ | (_ | (_ | ⟨loc, rest⟩)) <;>
      · intro e he
        simp [hg] at he
        subst he
        exact ⟨_, rfl⟩

/-- Claim C2 counterexample: with a working resolver and days = 10, the
forecast operation does return the day-validation error, but the coordinate
resolver has already been contacted — the call log is not empty. -/
theorem c2_resolver_called_counterexample :
    (get_forecast geoLondon (fun _ _ _ => some sampleDaily) "London" 10).1 =
      some (.error "Days must be between 1 and 7") ∧
    (get_forecast geoLondon (fun _ _ _ => some sampleDaily) "London" 10).2 =
      [.geo "London"] ∧
    (get_forecast geoLondon (fun _ _ _ => some sampleDaily) "London" 10).2 ≠ [] := by
  refine ⟨rfl, rfl, ?_⟩
  intro h
  rw [show (get_forecast geoLondon (fun _ _ _ => some sampleDaily) "London" 10).2 =
    [.geo "London"] from rfl] at h
  exact List.cons_ne_nil _ _ h

/-- Claim C2 (amended): for every day count outside 1..7, provided coordinate
resolution succeeds, the forecast operation returns the "Days must be between
1 and 7" error without contacting the forecast client — but only after the
coordinate resolver has been called: the call log is exactly the resolver's
log, which contains geocoding requests only. -/
theorem c2_days_validation (geo : String → GeoFetch)
    (fc : ℚ → ℚ → ℤ → Option RawDaily) (city : String) (days : ℤ)
    (coords : Coordinates) (hok : (get_coordinates geo city).1 = .ok coords)
    (hd : days < 1 ∨ days > 7) :
    get_forecast geo fc city days =
      (some (.error "Days must be between 1 and 7"),
        (get_coordinates geo city).2) ∧
    ∀ e ∈ (get_forecast geo fc city days).2, ∃ n, e = Call.geo n := by
  have hcalls := get_coordinates_calls geo city
  rcases hgc : get_coordinates geo city with ⟨res, log⟩
  rw [hgc] at hok hcalls
  replace hok : res = .ok coords := hok
  subst hok
  have hf : get_forecast geo fc city days =
      (some (.error "Days must be between 1 and 7"), log) := by
    simp only [get_forecast, hgc]
    rw [if_pos hd]
  refine ⟨by rw [hf], ?_⟩
  rw [hf]
  exact hcalls

/-- Witness for the amended C2 at a concrete resolver and days = 10. -/
theorem c2_days_validation_app :
    get_forecast geoLondon (fun _ _ _ => some sampleDaily) "London" 10 =
      (some (.error "Days must be between 1 and 7"),
        (get_coordinates geoLondon "London").2) :=
  (c2_days_validation geoLondon (fun _ _ _ => some sampleDaily) "London" 10
    londonCoords rfl (Or.inr (by norm_num))).1

/-! ### Claim C5 -/

/-- Claim C5 counterexample: with `precipitation_sum` absent from the raw
daily data, the forecast operation raises an uncaught KeyError (modelled as
`none`) instead of producing a normalized output with precipitation 0. -/
theorem c5_forecast_precip_counterexample :
    sampleDailyNoPrecip.precipitation_sum = none ∧
    (get_forecast geoLondon (fun _ _ _ => some sampleDailyNoPrecip) "London" 1).1 =
      none :=
  ⟨rfl, rfl⟩

/-- Claim C5 (amended): in current-weather normalization an absent
precipitation field defaults to 0; forecast normalization, however, reads
`daily["precipitation_sum"][i]` without a default, so with the key absent
every loop iteration raises instead of defaulting to 0. -/
theorem c5_precipitation_default (coords : Coordinates) (cur : RawCurrent)
    (hc : cur.precipitation = none) (daily : RawDaily) (i : ℕ)
    (hp : daily.precipitation_sum = none) :
    objGet2 (normalizeCurrent coords cur) "current" "precipitation" =
      some (.q 0) ∧
    forecastItem daily i = none := by
  constructor
  · have hv : objGet2 (normalizeCurrent coords cur) "current" "precipitation" =
        some (.q (cur.precipitation.getD 0)) := rfl
    rw [hv, hc]
    rfl
  · rcases daily with ⟨ot, otx, otn, oc, op, ows, owd⟩
    replace hp : op = none := hp
    subst hp
    rcases ot with _ | ts <;> rcases oc with _ | cs <;> rcases otx with _ | txs <;>
      rcases otn with _ | tns <;> rcases ows with _ | wss <;> rcases owd with _ | wds <;>
      simp [forecastItem]

/-- Witness for the amended C5 at concrete inputs. -/
theorem c5_precipitation_default_app :
    objGet2 (normalizeCurrent londonCoords
      { sampleCurrent with precipitation := none }) "current" "precipitation" =
      some (.q 0) ∧
    forecastItem sampleDailyNoPrecip 0 = none :=
  c5_precipitation_default londonCoords _ rfl sampleDailyNoPrecip 0 rfl

/-! ### Claim C6 -/

/-- `mapM` over `Option` succeeds pointwise: if `f` succeeds on every element
of `l`, the result has the same length as `l` and is pointwise `f`. -/
theorem mapM_eq_some_of_forall {α : Type} (l : List ℕ) (f : ℕ → Option α)
    (h : ∀ x ∈ l, (f x).isSome) :
    ∃ r : List α, l.mapM f = some r ∧ r.length = l.length ∧
      ∀ i : ℕ, r[i]? = l[i]?.bind f := by
  induction l with
  | nil =>
    refine ⟨[], rfl, rfl, fun i => ?_⟩
    simp
  | cons a as ih =>
    obtain ⟨b, hb⟩ := Option.isSome_iff_exists.mp (h a (by simp))
    obtain ⟨r, hr, hlen, hpt⟩ := ih (fun x hx => h x (by simp [hx]))
    refine ⟨b :: r, ?_, by simp [hlen], fun i => ?_⟩
    · rw [List.mapM_cons, hb, hr]
      rfl
    · cases i with
      | zero => simp [hb]
      | succ n => simpa using hpt n

/-- Under well-formedness, each loop iteration below `k` succeeds and its item
carries the i-th upstream date. -/
theorem forecastItem_of_wf (daily : RawDaily) (k : ℕ) (hw : wf_daily daily k)
    (ts : List String) (hts : daily.time = some ts) (i : ℕ) (hi : i < k) :
    ∃ item s, forecastItem daily i = some item ∧
      ts[i]? = some s ∧ objGet item "date" = some (.s s) := by
  obtain ⟨h1, h2, h3, h4, h5, h6, h7, h8⟩ := hw
  obtain ⟨txs, htx, hltx⟩ := Option.map_eq_some'.mp h2
  obtain ⟨tns, htn, hltn⟩ := Option.map_eq_some'.mp h3
  obtain ⟨cs, hcs, hlcs⟩ := Option.map_eq_some'.mp h4
  obtain ⟨ps, hps, hlps⟩ := Option.map_eq_some'.mp h5
  obtain ⟨wss, hwss, hlwss⟩ := Option.map_eq_some'.mp h6
  obtain ⟨wds, hwds, hlwds⟩ := Option.map_eq_some'.mp h7
  have hlts : ts.length = k := by
    rw [hts] at h1
    simpa using h1
  obtain ⟨s, hs⟩ : ∃ s, ts[i]? = some s :=
    ⟨_, List.getElem?_eq_getElem (by omega)⟩
  obtain ⟨code, hcode⟩ : ∃ x, cs[i]? = some x :=
    ⟨_, List.getElem?_eq_getElem (by omega)⟩
  obtain ⟨tmax, htmax⟩ : ∃ x, txs[i]? = some x :=
    ⟨_, List.getElem?_eq_getElem (by omega)⟩
  obtain ⟨tmin, htmin⟩ : ∃ x, tns[i]? = some x :=
    ⟨_, List.getElem?_eq_getElem (by omega)⟩
  obtain ⟨p, hpv⟩ : ∃ x, ps[i]? = some x :=
    ⟨_, List.getElem?_eq_getElem (by omega)⟩
  obtain ⟨ws, hwsv⟩ : ∃ x, wss[i]? = some x :=
    ⟨_, List.getElem?_eq_getElem (by omega)⟩
  obtain ⟨wd, hwdv⟩ : ∃ x, wds[i]? = some x :=
    ⟨_, List.getElem?_eq_getElem (by omega)⟩
  obtain ⟨date, hdate⟩ := Option.isSome_iff_exists.mp
    (h8 ts hts s (List.getElem?_mem hs))
  refine ⟨mkForecastItem s date code tmax tmin p ws wd, s, ?_, hs, rfl⟩
  simp only [forecastItem, hts, hcs, htx, htn, hps, hwss, hwds, hs, hcode,
    htmax, htmin, hpv, hwsv, hwdv, hdate]

/-- Claim C6: for every requested day count in 1..7 and every well-formed
k-day upstream daily response, forecast normalization succeeds with exactly
min(days, k) items, the i-th item carrying the i-th upstream date (so the
upstream date order is preserved); in particular requesting 7 days with 3
available yields a 3-item sequence, not an error. -/
theorem c6_forecast_clipping (coords : Coordinates) (daily : RawDaily)
    (d : ℤ) (k : ℕ) (ts : List String) (hw : wf_daily daily k)
    (h1 : 1 ≤ d) (h7 : d ≤ 7) (hts : daily.time = some ts) :
    ∃ j items, forecastResult coords daily d = some j ∧
      objGet j "forecast" = some (.arr items) ∧
      items.length = min d.toNat k ∧
      ∀ i : ℕ, i < items.length →
        (items[i]?.bind fun item => objGet item "date") = ts[i]?.map J.s := by
  have hlts : ts.length = k := by
    have h1t := hw.1
    rw [hts] at h1t
    simpa using h1t
  have hfa : ∀ x ∈ List.range (min d.toNat k), (forecastItem daily x).isSome := by
    intro x hx
    rw [List.mem_range] at hx
    obtain ⟨item, s, hitem, -, -⟩ :=
      forecastItem_of_wf daily k hw ts hts x (by omega)
    rw [hitem]
    rfl
  obtain ⟨r, hr, hlen, hpt⟩ :=
    mapM_eq_some_of_forall (List.range (min d.toNat k)) (forecastItem daily) hfa
  rw [List.length_range] at hlen
  have hres : forecastResult coords daily d = some (.obj (dictLit [
      ("location", .obj (dictLit [("name", .s coords.name),
        ("country", .s coords.country)])),
      ("forecast", .arr r),
      ("list", .arr r),
      ("city", .obj (dictLit [("name", .s coords.name)]))])) := by
    simp only [forecastResult, hts, hlts, hr]
  refine ⟨_, r, hres, rfl, hlen, ?_⟩
  intro i hilen
  have hin : i < min d.toNat k := by omega
  have hri : r[i]? = forecastItem daily i := by
    rw [hpt i, List.getElem?_range hin]
    rfl
  obtain ⟨item, s, hitem, hsi, hdate⟩ :=
    forecastItem_of_wf daily k hw ts hts i (by omega)
  rw [hri, hitem, hsi]
  simpa using hdate

/-- Witness for C6: requesting 7 days when the collaborator returned 3 days
yields exactly 3 forecast items. -/
theorem c6_forecast_clipping_app :
    ∃ j items, forecastResult londonCoords sampleDaily3 7 = some j ∧
      objGet j "forecast" = some (.arr items) ∧
      items.length = min (7 : ℤ).toNat 3 ∧
      ∀ i : ℕ, i < items.length →
        (items[i]?.bind fun item => objGet item "date") =
          ((["2024-01-01", "2024-01-02", "2024-01-03"] : List String)[i]?.map J.s) := by
  have hw : wf_daily sampleDaily3 3 := by
    refine ⟨rfl, rfl, rfl, rfl, rfl, rfl, rfl, ?_⟩
    intro ts hts s hs
    replace hts : (["2024-01-01", "2024-01-02", "2024-01-03"] : List String) = ts :=
      Option.some.inj hts
    subst hts
    fin_cases hs <;> decide
  exact c6_forecast_clipping londonCoords sampleDaily3 7 3
    ["2024-01-01", "2024-01-02", "2024-01-03"] hw (by norm_num) (by norm_num) rfl

end Weather
